import Mathlib

/-!
Shallow embedding of `src/index.js` of the menumaster repository: an Express
CRUD API over five Mongo collections (categories, offers, products,
restaurant-admins, restaurants) with image assets stored in Cloudinary.

Modelling choices:
* Each route handler becomes a pure Lean function from (the Cloudinary
  environment, the collection contents, the request data) to an `Outcome`
  recording the HTTP status, the JSON response body, the new collection
  contents, the ordered trace of external side effects (Cloudinary calls and
  document writes), and the console log lines.
* The Cloudinary environment (`Cloud`) fixes the outcome of every upload and
  destroy call, so a handler's behaviour under success/failure of the external
  service is a function of that parameter.
* A Mongo document of an image-bearing schema is a record with its image pair
  as explicit `String` fields plus `other`, an association list holding the
  remaining schema fields (restaurantId, name, price, ...) as key/value
  strings; a request body carries its non-image fields the same way, plus
  optional client-supplied values for the image pair (which the JS spread
  `\x7b ...req.body, image: ..., imagePublicId: ... \x7d` always overwrites).
* `findByIdAndUpdate(id, u, \x7bnew:true\x7d)` performs a `$set` of `u`'s keys
  over the stored document: `mergeFields` below.
* JS truthiness of a string field (`if (category.imagePublicId)`) is the test
  `≠ ""`.
-/

namespace MenuMaster

/-- One external side effect, in the order the handler issues it:
a Cloudinary upload or destroy call, or a document-store write. -/
inductive Event where
  | upload (folder : String) (buffer : List Nat)
  | destroy (publicId : String)
  | dbSave (id : String)
  | dbUpdate (id : String)
  | dbDelete (id : String)
  deriving Repr, DecidableEq

/-- `true` exactly on the events that are Asset Store (Cloudinary) calls. -/
def isAssetCall : Event → Bool
  | Event.upload _ _ => true
  | Event.destroy _ => true
  | _ => false

/-- The record a successful Cloudinary upload resolves with:
`\x7b url: result.secure_url, publicId: result.public_id \x7d`. -/
structure UploadOk where
  url : String
  publicId : String
  deriving Repr, DecidableEq

/-- The Cloudinary environment: the outcome of an upload of given bytes into a
given folder, and the outcome of a destroy of a given public id. -/
structure Cloud where
  uploadResult : List Nat → String → Except String UploadOk
  destroyResult : String → Except String Unit

/-- `uploadToCloudinary(buffer, folder)`: streams `buffer` into Cloudinary
folder `menumaster/folder`; resolves with the url/public-id pair or rejects
with the error. Returns the outcome together with the emitted call event. -/
def uploadToCloudinary (cloud : Cloud) (buffer : List Nat) (folder : String) :
    Except String UploadOk × List Event :=
  (cloud.uploadResult buffer ("menumaster/" ++ folder),
   [Event.upload ("menumaster/" ++ folder) buffer])

/-- `deleteFromCloudinary(publicId)`: awaits `cloudinary.uploader.destroy` and
swallows any error, logging it to the console. Returns the emitted call event
together with the console output. -/
def deleteFromCloudinary (cloud : Cloud) (publicId : String) :
    List Event × List String :=
  match cloud.destroyResult publicId with
  | Except.ok _ => ([Event.destroy publicId], [])
  | Except.error e =>
      ([Event.destroy publicId], ["Error deleting image from Cloudinary: " ++ e])

/-- `Model.findById(id)`: first document whose id matches, if any. -/
def findById {δ : Type} (store : List (String × δ)) (id : String) : Option δ :=
  match store with
  | [] => none
  | (k, d) :: rest => if k = id then some d else findById rest id

/-- The write performed by `Model.findByIdAndUpdate(id, u, \x7bnew:true\x7d)`:
replace the document stored under `id` (no-op when `id` is absent). -/
def storeSet {δ : Type} (store : List (String × δ)) (id : String) (d : δ) :
    List (String × δ) :=
  match store with
  | [] => []
  | (k, e) :: rest => if k = id then (k, d) :: rest else (k, e) :: storeSet rest id d

/-- The write performed by `Model.findByIdAndDelete(id)`: drop the document
stored under `id`. -/
def storeRemove {δ : Type} (store : List (String × δ)) (id : String) :
    List (String × δ) :=
  match store with
  | [] => []
  | (k, e) :: rest => if k = id then rest else (k, e) :: storeRemove rest id

/-- Set one key of an association list, keeping the position of an existing
key and appending a fresh one. -/
def setKey (l : List (String × String)) (k v : String) : List (String × String) :=
  match l with
  | [] => [(k, v)]
  | (k₀, v₀) :: rest => if k₀ = k then (k, v) :: rest else (k₀, v₀) :: setKey rest k v

/-- Mongo `$set` semantics of an update document: every key of `updates`
overwrites the stored value, every other stored key is carried forward. -/
def mergeFields (existing updates : List (String × String)) : List (String × String) :=
  updates.foldl (fun acc kv => setKey acc kv.1 kv.2) existing

/-- A JSON response body: a single document, a list of documents, a
`\x7bmessage: ...\x7d` confirmation, or an `\x7berror: ...\x7d` payload. -/
inductive RespBody (δ : Type) where
  | doc (d : δ)
  | docs (l : List δ)
  | message (m : String)
  | error (e : String)
  deriving Repr, DecidableEq

/-- What one request produces: HTTP status, JSON body, the collection after
the request, the ordered external-effect trace, and the console log. -/
structure Outcome (σ δ : Type) where
  status : Nat
  body : RespBody δ
  store : σ
  events : List Event
  log : List String
  deriving Repr, DecidableEq

/-! ## Categories -/

/-- A document of `categorySchema`: image pair explicit, the remaining fields
(restaurantId, order, name) in `other`. -/
structure CategoryDoc where
  other : List (String × String)
  image : String
  imagePublicId : String
  deriving Repr, DecidableEq

/-- A request body for a category route: non-image fields in `other`
(holding no `image`/`imagePublicId` key), plus the client-supplied values for
the image pair when the client sent any — the handlers always overwrite them. -/
structure CategoryBody where
  other : List (String × String)
  image : Option String
  imagePublicId : Option String
  deriving Repr, DecidableEq

abbrev CategoryStore := List (String × CategoryDoc)

/-- `app.post('/api/categories')`: upload the file if one was sent, then save
`\x7b ...req.body, image: imageData.url, imagePublicId: imageData.publicId \x7d`;
201 with the document, 500 with the error message if the upload rejects. -/
def postCategories (cloud : Cloud) (store : CategoryStore) (newId : String)
    (body : CategoryBody) (file : Option (List Nat)) : Outcome CategoryStore CategoryDoc :=
  match file with
  | none =>
      let d : CategoryDoc := { other := body.other, image := "", imagePublicId := "" }
      { status := 201, body := RespBody.doc d, store := store ++ [(newId, d)],
        events := [Event.dbSave newId], log := [] }
  | some buf =>
      let up := uploadToCloudinary cloud buf "categories"
      match up.1 with
      | Except.error e =>
          { status := 500, body := RespBody.error e, store := store,
            events := up.2, log := [] }
      | Except.ok u =>
          let d : CategoryDoc :=
            { other := body.other, image := u.url, imagePublicId := u.publicId }
          { status := 201, body := RespBody.doc d, store := store ++ [(newId, d)],
            events := up.2 ++ [Event.dbSave newId], log := [] }

/-- `app.get('/api/categories')`: every document of the collection. -/
def getCategoriesList (store : CategoryStore) : Outcome CategoryStore CategoryDoc :=
  { status := 200, body := RespBody.docs (store.map Prod.snd), store := store,
    events := [], log := [] }

/-- `app.get('/api/categories/:id')`: the document, or 404. -/
def getCategoryById (store : CategoryStore) (id : String) : Outcome CategoryStore CategoryDoc :=
  match findById store id with
  | none =>
      { status := 404, body := RespBody.error "Category not found", store := store,
        events := [], log := [] }
  | some d =>
      { status := 200, body := RespBody.doc d, store := store, events := [], log := [] }

/-- `app.put('/api/categories/:id')`: 404 when absent; otherwise, when a file
was sent, destroy the old asset if its public id is truthy and upload the new
bytes (500 on upload rejection, before any document write); finally
`findByIdAndUpdate` with `\x7b ...req.body, image, imagePublicId \x7d`. -/
def putCategoryById (cloud : Cloud) (store : CategoryStore) (id : String)
    (body : CategoryBody) (file : Option (List Nat)) : Outcome CategoryStore CategoryDoc :=
  match findById store id with
  | none =>
      { status := 404, body := RespBody.error "Category not found", store := store,
        events := [], log := [] }
  | some category =>
      match file with
      | none =>
          let updated : CategoryDoc :=
            { other := mergeFields category.other body.other,
              image := category.image, imagePublicId := category.imagePublicId }
          { status := 200, body := RespBody.doc updated,
            store := storeSet store id updated,
            events := [Event.dbUpdate id], log := [] }
      | some buf =>
          let del := if category.imagePublicId = "" then ([], [])
                     else deleteFromCloudinary cloud category.imagePublicId
          let up := uploadToCloudinary cloud buf "categories"
          match up.1 with
          | Except.error e =>
              { status := 500, body := RespBody.error e, store := store,
                events := del.1 ++ up.2, log := del.2 }
          | Except.ok u =>
              let updated : CategoryDoc :=
                { other := mergeFields category.other body.other,
                  image := u.url, imagePublicId := u.publicId }
              { status := 200, body := RespBody.doc updated,
                store := storeSet store id updated,
                events := del.1 ++ up.2 ++ [Event.dbUpdate id], log := del.2 }

/-- `app.delete('/api/categories/:id')`: 404 when absent; otherwise destroy
the asset if the stored public id is truthy, then delete the document. -/
def deleteCategoryById (cloud : Cloud) (store : CategoryStore) (id : String) :
    Outcome CategoryStore CategoryDoc :=
  match findById store id with
  | none =>
      { status := 404, body := RespBody.error "Category not found", store := store,
        events := [], log := [] }
  | some category =>
      let del := if category.imagePublicId = "" then ([], [])
                 else deleteFromCloudinary cloud category.imagePublicId
      { status := 200, body := RespBody.message "Category deleted",
        store := storeRemove store id,
        events := del.1 ++ [Event.dbDelete id], log := del.2 }

/-! ## Offers (no image fields) -/

/-- A document of `offerSchema` (restaurantId, title, description, discount,
tags, validUntil, active), all fields in one association list. -/
abbrev OfferDoc := List (String × String)

abbrev OfferStore := List (String × OfferDoc)

/-- `app.get('/api/offers')`: every document of the collection. -/
def getOffersList (store : OfferStore) : Outcome OfferStore OfferDoc :=
  { status := 200, body := RespBody.docs (store.map Prod.snd), store := store,
    events := [], log := [] }

/-- `app.get('/api/offers/:id')`: the document, or 404. -/
def getOfferById (store : OfferStore) (id : String) : Outcome OfferStore OfferDoc :=
  match findById store id with
  | none =>
      { status := 404, body := RespBody.error "Offer not found", store := store,
        events := [], log := [] }
  | some d =>
      { status := 200, body := RespBody.doc d, store := store, events := [], log := [] }

/-- `app.put('/api/offers/:id')`: `findByIdAndUpdate(id, req.body, \x7bnew:true\x7d)`,
404 when it returns null. -/
def putOfferById (store : OfferStore) (id : String) (body : List (String × String)) :
    Outcome OfferStore OfferDoc :=
  match findById store id with
  | none =>
      { status := 404, body := RespBody.error "Offer not found", store := store,
        events := [], log := [] }
  | some offer =>
      let updated := mergeFields offer body
      { status := 200, body := RespBody.doc updated, store := storeSet store id updated,
        events := [Event.dbUpdate id], log := [] }

/-- `app.delete('/api/offers/:id')`: `findByIdAndDelete(id)`, 404 when null. -/
def deleteOfferById (store : OfferStore) (id : String) : Outcome OfferStore OfferDoc :=
  match findById store id with
  | none =>
      { status := 404, body := RespBody.error "Offer not found", store := store,
        events := [], log := [] }
  | some _ =>
      { status := 200, body := RespBody.message "Offer deleted",
        store := storeRemove store id, events := [Event.dbDelete id], log := [] }

/-! ## Products -/

/-- A document of `productSchema`: image pair explicit, the remaining fields
(restaurantId, name, description, price, categoryId, available) in `other`. -/
structure ProductDoc where
  other : List (String × String)
  image : String
  imagePublicId : String
  deriving Repr, DecidableEq

/-- A request body for a product route, shaped like `CategoryBody`. -/
structure ProductBody where
  other : List (String × String)
  image : Option String
  imagePublicId : Option String
  deriving Repr, DecidableEq

abbrev ProductStore := List (String × ProductDoc)

/-- `app.post('/api/products')`: same shape as the category create, folder
`products`. -/
def postProducts (cloud : Cloud) (store : ProductStore) (newId : String)
    (body : ProductBody) (file : Option (List Nat)) : Outcome ProductStore ProductDoc :=
  match file with
  | none =>
      let d : ProductDoc := { other := body.other, image := "", imagePublicId := "" }
      { status := 201, body := RespBody.doc d, store := store ++ [(newId, d)],
        events := [Event.dbSave newId], log := [] }
  | some buf =>
      let up := uploadToCloudinary cloud buf "products"
      match up.1 with
      | Except.error e =>
          { status := 500, body := RespBody.error e, store := store,
            events := up.2, log := [] }
      | Except.ok u =>
          let d : ProductDoc :=
            { other := body.other, image := u.url, imagePublicId := u.publicId }
          { status := 201, body := RespBody.doc d, store := store ++ [(newId, d)],
            events := up.2 ++ [Event.dbSave newId], log := [] }

/-- `app.get('/api/products')`: every document of the collection. -/
def getProductsList (store : ProductStore) : Outcome ProductStore ProductDoc :=
  { status := 200, body := RespBody.docs (store.map Prod.snd), store := store,
    events := [], log := [] }

/-- `app.get('/api/products/:id')`: the document, or 404. -/
def getProductById (store : ProductStore) (id : String) : Outcome ProductStore ProductDoc :=
  match findById store id with
  | none =>
      { status := 404, body := RespBody.error "Product not found", store := store,
        events := [], log := [] }
  | some d =>
      { status := 200, body := RespBody.doc d, store := store, events := [], log := [] }

/-- `app.put('/api/products/:id')`: same shape as the category update, folder
`products`. -/
def putProductById (cloud : Cloud) (store : ProductStore) (id : String)
    (body : ProductBody) (file : Option (List Nat)) : Outcome ProductStore ProductDoc :=
  match findById store id with
  | none =>
      { status := 404, body := RespBody.error "Product not found", store := store,
        events := [], log := [] }
  | some product =>
      match file with
      | none =>
          let updated : ProductDoc :=
            { other := mergeFields product.other body.other,
              image := product.image, imagePublicId := product.imagePublicId }
          { status := 200, body := RespBody.doc updated,
            store := storeSet store id updated,
            events := [Event.dbUpdate id], log := [] }
      | some buf =>
          let del := if product.imagePublicId = "" then ([], [])
                     else deleteFromCloudinary cloud product.imagePublicId
          let up := uploadToCloudinary cloud buf "products"
          match up.1 with
          | Except.error e =>
              { status := 500, body := RespBody.error e, store := store,
                events := del.1 ++ up.2, log := del.2 }
          | Except.ok u =>
              let updated : ProductDoc :=
                { other := mergeFields product.other body.other,
                  image := u.url, imagePublicId := u.publicId }
              { status := 200, body := RespBody.doc updated,
                store := storeSet store id updated,
                events := del.1 ++ up.2 ++ [Event.dbUpdate id], log := del.2 }

/-- `app.delete('/api/products/:id')`: same shape as the category delete. -/
def deleteProductById (cloud : Cloud) (store : ProductStore) (id : String) :
    Outcome ProductStore ProductDoc :=
  match findById store id with
  | none =>
      { status := 404, body := RespBody.error "Product not found", store := store,
        events := [], log := [] }
  | some product =>
      let del := if product.imagePublicId = "" then ([], [])
                 else deleteFromCloudinary cloud product.imagePublicId
      { status := 200, body := RespBody.message "Product deleted",
        store := storeRemove store id,
        events := del.1 ++ [Event.dbDelete id], log := del.2 }

/-! ## Restaurant admins (no image fields) -/

/-- A document of `restaurantAdminSchema` (restaurantId, createdAt, username,
password, restaurantName), all fields in one association list. -/
abbrev AdminDoc := List (String × String)

abbrev AdminStore := List (String × AdminDoc)

/-- `app.get('/api/restaurant-admins')`: every document of the collection. -/
def getAdminsList (store : AdminStore) : Outcome AdminStore AdminDoc :=
  { status := 200, body := RespBody.docs (store.map Prod.snd), store := store,
    events := [], log := [] }

/-- `app.get('/api/restaurant-admins/:id')`: the document, or 404. -/
def getAdminById (store : AdminStore) (id : String) : Outcome AdminStore AdminDoc :=
  match findById store id with
  | none =>
      { status := 404, body := RespBody.error "Admin not found", store := store,
        events := [], log := [] }
  | some d =>
      { status := 200, body := RespBody.doc d, store := store, events := [], log := [] }

/-- `app.put('/api/restaurant-admins/:id')`: `findByIdAndUpdate`, 404 on null. -/
def putAdminById (store : AdminStore) (id : String) (body : List (String × String)) :
    Outcome AdminStore AdminDoc :=
  match findById store id with
  | none =>
      { status := 404, body := RespBody.error "Admin not found", store := store,
        events := [], log := [] }
  | some admin =>
      let updated := mergeFields admin body
      { status := 200, body := RespBody.doc updated, store := storeSet store id updated,
        events := [Event.dbUpdate id], log := [] }

/-- `app.delete('/api/restaurant-admins/:id')`: `findByIdAndDelete`, 404 on null. -/
def deleteAdminById (store : AdminStore) (id : String) : Outcome AdminStore AdminDoc :=
  match findById store id with
  | none =>
      { status := 404, body := RespBody.error "Admin not found", store := store,
        events := [], log := [] }
  | some _ =>
      { status := 200, body := RespBody.message "Admin deleted",
        store := storeRemove store id, events := [Event.dbDelete id], log := [] }

/-! ## Restaurants -/

/-- A document of `restaurantSchema`: logo pair explicit, the remaining fields
(adminId, name, address, contact) in `other`. -/
structure RestaurantDoc where
  other : List (String × String)
  logo : String
  logoPublicId : String
  deriving Repr, DecidableEq

/-- A request body for a restaurant route: non-logo fields in `other`, plus
client-supplied logo-pair values, always overwritten by the handlers. -/
structure RestaurantBody where
  other : List (String × String)
  logo : Option String
  logoPublicId : Option String
  deriving Repr, DecidableEq

abbrev RestaurantStore := List (String × RestaurantDoc)

/-- `app.post('/api/restaurants')`: upload the `logo` file if one was sent,
then save `\x7b ...req.body, logo: logoData.url, logoPublicId: logoData.publicId \x7d`. -/
def postRestaurants (cloud : Cloud) (store : RestaurantStore) (newId : String)
    (body : RestaurantBody) (file : Option (List Nat)) : Outcome RestaurantStore RestaurantDoc :=
  match file with
  | none =>
      let d : RestaurantDoc := { other := body.other, logo := "", logoPublicId := "" }
      { status := 201, body := RespBody.doc d, store := store ++ [(newId, d)],
        events := [Event.dbSave newId], log := [] }
  | some buf =>
      let up := uploadToCloudinary cloud buf "restaurants"
      match up.1 with
      | Except.error e =>
          { status := 500, body := RespBody.error e, store := store,
            events := up.2, log := [] }
      | Except.ok u =>
          let d : RestaurantDoc :=
            { other := body.other, logo := u.url, logoPublicId := u.publicId }
          { status := 201, body := RespBody.doc d, store := store ++ [(newId, d)],
            events := up.2 ++ [Event.dbSave newId], log := [] }

/-- `app.get('/api/restaurants')`: every document of the collection. -/
def getRestaurantsList (store : RestaurantStore) : Outcome RestaurantStore RestaurantDoc :=
  { status := 200, body := RespBody.docs (store.map Prod.snd), store := store,
    events := [], log := [] }

/-- `app.get('/api/restaurants/:id')`: the document, or 404. -/
def getRestaurantById (store : RestaurantStore) (id : String) :
    Outcome RestaurantStore RestaurantDoc :=
  match findById store id with
  | none =>
      { status := 404, body := RespBody.error "Restaurant not found", store := store,
        events := [], log := [] }
  | some d =>
      { status := 200, body := RespBody.doc d, store := store, events := [], log := [] }

/-- `app.put('/api/restaurants/:id')`: 404 when absent; otherwise destroy the
old logo asset if `logoPublicId` is truthy and a file was sent, upload the new
bytes into folder `restaurants`, then `findByIdAndUpdate` with
`\x7b ...req.body, logo, logoPublicId \x7d`. -/
def putRestaurantById (cloud : Cloud) (store : RestaurantStore) (id : String)
    (body : RestaurantBody) (file : Option (List Nat)) : Outcome RestaurantStore RestaurantDoc :=
  match findById store id with
  | none =>
      { status := 404, body := RespBody.error "Restaurant not found", store := store,
        events := [], log := [] }
  | some restaurant =>
      match file with
      | none =>
          let updated : RestaurantDoc :=
            { other := mergeFields restaurant.other body.other,
              logo := restaurant.logo, logoPublicId := restaurant.logoPublicId }
          { status := 200, body := RespBody.doc updated,
            store := storeSet store id updated,
            events := [Event.dbUpdate id], log := [] }
      | some buf =>
          let del := if restaurant.logoPublicId = "" then ([], [])
                     else deleteFromCloudinary cloud restaurant.logoPublicId
          let up := uploadToCloudinary cloud buf "restaurants"
          match up.1 with
          | Except.error e =>
              { status := 500, body := RespBody.error e, store := store,
                events := del.1 ++ up.2, log := del.2 }
          | Except.ok u =>
              let updated : RestaurantDoc :=
                { other := mergeFields restaurant.other body.other,
                  logo := u.url, logoPublicId := u.publicId }
              { status := 200, body := RespBody.doc updated,
                store := storeSet store id updated,
                events := del.1 ++ up.2 ++ [Event.dbUpdate id], log := del.2 }

/-- `app.delete('/api/restaurants/:id')`: 404 when absent; otherwise destroy
the logo asset if `logoPublicId` is truthy, then delete the document. -/
def deleteRestaurantById (cloud : Cloud) (store : RestaurantStore) (id : String) :
    Outcome RestaurantStore RestaurantDoc :=
  match findById store id with
  | none =>
      { status := 404, body := RespBody.error "Restaurant not found", store := store,
        events := [], log := [] }
  | some restaurant =>
      let del := if restaurant.logoPublicId = "" then ([], [])
                 else deleteFromCloudinary cloud restaurant.logoPublicId
      { status := 200, body := RespBody.message "Restaurant deleted",
        store := storeRemove store id,
        events := del.1 ++ [Event.dbDelete id], log := del.2 }

/-! ## Invariant predicates and concrete environments -/

/-- The image-pair invariant of the spec: both fields empty, or both
non-empty. -/
def pairOk (url pid : String) : Prop := (url = "" ∧ pid = "") ∨ (url ≠ "" ∧ pid ≠ "")

/-- The Asset Store returns url/public-id pairs satisfying `pairOk` (a real
Cloudinary upload returns both non-empty). -/
def cloudUploadsPairOk (cloud : Cloud) : Prop :=
  ∀ buf folder u, cloud.uploadResult buf folder = Except.ok u → pairOk u.url u.publicId

/-- Every stored category satisfies the image-pair invariant. -/
def catStoreOk (store : CategoryStore) : Prop :=
  ∀ p ∈ store, pairOk p.2.image p.2.imagePublicId

/-- Every stored product satisfies the image-pair invariant. -/
def prodStoreOk (store : ProductStore) : Prop :=
  ∀ p ∈ store, pairOk p.2.image p.2.imagePublicId

/-- Every stored restaurant satisfies the logo-pair invariant. -/
def restStoreOk (store : RestaurantStore) : Prop :=
  ∀ p ∈ store, pairOk p.2.logo p.2.logoPublicId

/-- A concrete Cloudinary environment: every upload succeeds with a fixed
non-empty url/public-id pair, every destroy succeeds. -/
def cloudDemoOk : Cloud :=
  { uploadResult := fun _ _ =>
      Except.ok { url := "https://res.example/img.png", publicId := "newpid1" },
    destroyResult := fun _ => Except.ok () }

/-- A concrete Cloudinary environment whose uploads always reject. -/
def cloudDemoUploadFail : Cloud :=
  { uploadResult := fun _ _ => Except.error "upload rejected",
    destroyResult := fun _ => Except.ok () }

/-! ## Helper lemmas -/

/-- `deleteFromCloudinary` always issues exactly the destroy call, whatever
the destroy outcome is. -/
theorem deleteFromCloudinary_events (cloud : Cloud) (pid : String) :
    (deleteFromCloudinary cloud pid).1 = [Event.destroy pid] := by
  unfold deleteFromCloudinary
  cases cloud.destroyResult pid <;> rfl

/-- A document found by id is a stored value. -/
theorem findById_mem {δ : Type} :
    ∀ (store : List (String × δ)) (id : String) (d : δ),
      findById store id = some d → ∃ p ∈ store, p.2 = d := by
  intro store id d
  induction store with
  | nil => intro h; simp [findById] at h
  | cons q rest ih =>
      obtain ⟨k, v⟩ := q
      intro h
      simp only [findById] at h
      by_cases hk : k = id
      · rw [if_pos hk] at h
        injection h with hv
        exact ⟨(k, v), List.mem_cons_self _ _, hv⟩
      · rw [if_neg hk] at h
        obtain ⟨p, hp, he⟩ := ih h
        exact ⟨p, List.mem_cons_of_mem _ hp, he⟩

/-- `storeSet` preserves a property holding of every stored value, provided
the new value has it. -/
theorem storeSet_allOk {δ : Type} (P : δ → Prop) (id : String) (d : δ) (hd : P d) :
    ∀ store : List (String × δ), (∀ p ∈ store, P p.2) →
      ∀ p ∈ storeSet store id d, P p.2 := by
  intro store
  induction store with
  | nil => intro _; simp [storeSet]
  | cons q rest ih =>
      obtain ⟨k, v⟩ := q
      intro hs p hp
      simp only [storeSet] at hp
      by_cases hk : k = id
      · rw [if_pos hk] at hp
        rcases List.mem_cons.mp hp with h1 | h2
        · subst h1; exact hd
        · exact hs p (List.mem_cons_of_mem _ h2)
      · rw [if_neg hk] at hp
        rcases List.mem_cons.mp hp with h1 | h2
        · subst h1; exact hs (k, v) (List.mem_cons_self _ _)
        · exact ih (fun r hr => hs r (List.mem_cons_of_mem _ hr)) p h2

/-- Appending a new entry preserves a property holding of every stored value,
provided the new value has it. -/
theorem append_allOk {δ : Type} (P : δ → Prop) (store : List (String × δ))
    (id : String) (d : δ) (hs : ∀ p ∈ store, P p.2) (hd : P d) :
    ∀ p ∈ store ++ [(id, d)], P p.2 := by
  intro p hp
  rcases List.mem_append.mp hp with h | h
  · exact hs p h
  · simp at h; subst h; exact hd

/-- Folder strings as the code interpolates them. -/
theorem folder_categories : ("menumaster/" ++ "categories" : String) = "menumaster/categories" := rfl

theorem folder_products : ("menumaster/" ++ "products" : String) = "menumaster/products" := rfl

theorem folder_restaurants : ("menumaster/" ++ "restaurants" : String) = "menumaster/restaurants" := rfl

/-! ## Claims -/

/-- C4: creating a Category, Product or Restaurant with no file stores a
document whose image URL and asset-id fields are both the empty string (never
absent), all other raw body fields pass through unchanged, no Asset Store
call is made, and the response is HTTP 201 with the created document. -/
theorem c4_create_without_file_empty_pair :
    (∀ (cloud : Cloud) (store : CategoryStore) (newId : String) (body : CategoryBody),
      (postCategories cloud store newId body none).status = 201 ∧
      (postCategories cloud store newId body none).body =
        RespBody.doc { other := body.other, image := "", imagePublicId := "" } ∧
      (postCategories cloud store newId body none).store =
        store ++ [(newId, { other := body.other, image := "", imagePublicId := "" })] ∧
      ∀ e ∈ (postCategories cloud store newId body none).events, isAssetCall e = false) ∧
    (∀ (cloud : Cloud) (store : ProductStore) (newId : String) (body : ProductBody),
      (postProducts cloud store newId body none).status = 201 ∧
      (postProducts cloud store newId body none).body =
        RespBody.doc { other := body.other, image := "", imagePublicId := "" } ∧
      (postProducts cloud store newId body none).store =
        store ++ [(newId, { other := body.other, image := "", imagePublicId := "" })] ∧
      ∀ e ∈ (postProducts cloud store newId body none).events, isAssetCall e = false) ∧
    (∀ (cloud : Cloud) (store : RestaurantStore) (newId : String) (body : RestaurantBody),
      (postRestaurants cloud store newId body none).status = 201 ∧
      (postRestaurants cloud store newId body none).body =
        RespBody.doc { other := body.other, logo := "", logoPublicId := "" } ∧
      (postRestaurants cloud store newId body none).store =
        store ++ [(newId, { other := body.other, logo := "", logoPublicId := "" })] ∧
      ∀ e ∈ (postRestaurants cloud store newId body none).events, isAssetCall e = false) := by
  refine ⟨?_, ?_, ?_⟩ <;>
    · intro cloud store newId body
      refine ⟨rfl, rfl, rfl, ?_⟩
      intro e he
      simp [postCategories, postProducts, postRestaurants] at he
      subst he
      rfl

/-- C5: creating a Category, Product or Restaurant with file bytes uploads
them into the Cloudinary folder namespaced by the entity kind, and on upload
success the stored document's image URL and asset id are exactly the pair the
Asset Store returned. -/
theorem c5_create_with_file_upload :
    (∀ (cloud : Cloud) (store : CategoryStore) (newId : String) (body : CategoryBody)
      (buf : List Nat) (u : UploadOk),
      cloud.uploadResult buf "menumaster/categories" = Except.ok u →
      (postCategories cloud store newId body (some buf)).status = 201 ∧
      (postCategories cloud store newId body (some buf)).body =
        RespBody.doc { other := body.other, image := u.url, imagePublicId := u.publicId } ∧
      (postCategories cloud store newId body (some buf)).store =
        store ++ [(newId, { other := body.other, image := u.url, imagePublicId := u.publicId })] ∧
      (postCategories cloud store newId body (some buf)).events =
        [Event.upload "menumaster/categories" buf, Event.dbSave newId]) ∧
    (∀ (cloud : Cloud) (store : ProductStore) (newId : String) (body : ProductBody)
      (buf : List Nat) (u : UploadOk),
      cloud.uploadResult buf "menumaster/products" = Except.ok u →
      (postProducts cloud store newId body (some buf)).status = 201 ∧
      (postProducts cloud store newId body (some buf)).body =
        RespBody.doc { other := body.other, image := u.url, imagePublicId := u.publicId } ∧
      (postProducts cloud store newId body (some buf)).store =
        store ++ [(newId, { other := body.other, image := u.url, imagePublicId := u.publicId })] ∧
      (postProducts cloud store newId body (some buf)).events =
        [Event.upload "menumaster/products" buf, Event.dbSave newId]) ∧
    (∀ (cloud : Cloud) (store : RestaurantStore) (newId : String) (body : RestaurantBody)
      (buf : List Nat) (u : UploadOk),
      cloud.uploadResult buf "menumaster/restaurants" = Except.ok u →
      (postRestaurants cloud store newId body (some buf)).status = 201 ∧
      (postRestaurants cloud store newId body (some buf)).body =
        RespBody.doc { other := body.other, logo := u.url, logoPublicId := u.publicId } ∧
      (postRestaurants cloud store newId body (some buf)).store =
        store ++ [(newId, { other := body.other, logo := u.url, logoPublicId := u.publicId })] ∧
      (postRestaurants cloud store newId body (some buf)).events =
        [Event.upload "menumaster/restaurants" buf, Event.dbSave newId]) := by
  refine ⟨?_, ?_, ?_⟩ <;>
    · intro cloud store newId body buf u h
      simp [postCategories, postProducts, postRestaurants, uploadToCloudinary,
        folder_categories, folder_products, folder_restaurants, h]

/-- C6: when the upload fails on a create of a Category, Product or
Restaurant, no document is written (the collection is unchanged, no
document-save event is issued) and the caller receives HTTP 500 whose body
echoes the underlying error message. -/
theorem c6_create_upload_failure :
    (∀ (cloud : Cloud) (store : CategoryStore) (newId : String) (body : CategoryBody)
      (buf : List Nat) (e : String),
      cloud.uploadResult buf "menumaster/categories" = Except.error e →
      (postCategories cloud store newId body (some buf)).status = 500 ∧
      (postCategories cloud store newId body (some buf)).body = RespBody.error e ∧
      (postCategories cloud store newId body (some buf)).store = store ∧
      (postCategories cloud store newId body (some buf)).events =
        [Event.upload "menumaster/categories" buf]) ∧
    (∀ (cloud : Cloud) (store : ProductStore) (newId : String) (body : ProductBody)
      (buf : List Nat) (e : String),
      cloud.uploadResult buf "menumaster/products" = Except.error e →
      (postProducts cloud store newId body (some buf)).status = 500 ∧
      (postProducts cloud store newId body (some buf)).body = RespBody.error e ∧
      (postProducts cloud store newId body (some buf)).store = store ∧
      (postProducts cloud store newId body (some buf)).events =
        [Event.upload "menumaster/products" buf]) ∧
    (∀ (cloud : Cloud) (store : RestaurantStore) (newId : String) (body : RestaurantBody)
      (buf : List Nat) (e : String),
      cloud.uploadResult buf "menumaster/restaurants" = Except.error e →
      (postRestaurants cloud store newId body (some buf)).status = 500 ∧
      (postRestaurants cloud store newId body (some buf)).body = RespBody.error e ∧
      (postRestaurants cloud store newId body (some buf)).store = store ∧
      (postRestaurants cloud store newId body (some buf)).events =
        [Event.upload "menumaster/restaurants" buf]) := by
  refine ⟨?_, ?_, ?_⟩ <;>
    · intro cloud store newId body buf e h
      simp [postCategories, postProducts, postRestaurants, uploadToCloudinary,
        folder_categories, folder_products, folder_restaurants, h]

/-- C1: every create or update of a Category, Product or Restaurant keeps the
image-pair invariant of all persisted documents: assuming the Asset Store
returns url/public-id pairs that are set/unset together, and every document
already stored satisfies the invariant, every document stored after the
operation does too — the handlers' values overwrite any client-supplied image
fields, so no operation can leave exactly one of the two set. -/
theorem c1_image_pair_invariant :
    (∀ (cloud : Cloud) (store : CategoryStore) (newId : String) (body : CategoryBody)
      (file : Option (List Nat)), cloudUploadsPairOk cloud → catStoreOk store →
      catStoreOk (postCategories cloud store newId body file).store) ∧
    (∀ (cloud : Cloud) (store : CategoryStore) (id : String) (body : CategoryBody)
      (file : Option (List Nat)), cloudUploadsPairOk cloud → catStoreOk store →
      catStoreOk (putCategoryById cloud store id body file).store) ∧
    (∀ (cloud : Cloud) (store : ProductStore) (newId : String) (body : ProductBody)
      (file : Option (List Nat)), cloudUploadsPairOk cloud → prodStoreOk store →
      prodStoreOk (postProducts cloud store newId body file).store) ∧
    (∀ (cloud : Cloud) (store : ProductStore) (id : String) (body : ProductBody)
      (file : Option (List Nat)), cloudUploadsPairOk cloud → prodStoreOk store →
      prodStoreOk (putProductById cloud store id body file).store) ∧
    (∀ (cloud : Cloud) (store : RestaurantStore) (newId : String) (body : RestaurantBody)
      (file : Option (List Nat)), cloudUploadsPairOk cloud → restStoreOk store →
      restStoreOk (postRestaurants cloud store newId body file).store) ∧
    (∀ (cloud : Cloud) (store : RestaurantStore) (id : String) (body : RestaurantBody)
      (file : Option (List Nat)), cloudUploadsPairOk cloud → restStoreOk store →
      restStoreOk (putRestaurantById cloud store id body file).store) := by
  refine ⟨?_, ?_, ?_, ?_, ?_, ?_⟩
  case _ =>
    intro cloud store newId body file hc hs
    cases file with
    | none => exact append_allOk (fun d : CategoryDoc => pairOk d.image d.imagePublicId) store newId _ hs (Or.inl ⟨rfl, rfl⟩)
    | some buf =>
        simp only [postCategories, uploadToCloudinary, catStoreOk]
        cases hu : cloud.uploadResult buf ("menumaster/" ++ "categories") with
        | error e => exact hs
        | ok u => exact append_allOk (fun d : CategoryDoc => pairOk d.image d.imagePublicId) store newId _ hs (hc _ _ u hu)
  case _ =>
    intro cloud store id body file hc hs
    cases hf : findById store id with
    | none => simpa only [putCategoryById, hf] using hs
    | some cat =>
        obtain ⟨p, hp, he⟩ := findById_mem store id cat hf
        have hcat : pairOk cat.image cat.imagePublicId := he ▸ hs p hp
        cases file with
        | none =>
            simp only [putCategoryById, hf]
            exact storeSet_allOk (fun d : CategoryDoc => pairOk d.image d.imagePublicId) id
              { other := mergeFields cat.other body.other,
                image := cat.image, imagePublicId := cat.imagePublicId } hcat store hs
        | some buf =>
            simp only [putCategoryById, hf, uploadToCloudinary]
            cases hu : cloud.uploadResult buf ("menumaster/" ++ "categories") with
            | error e => exact hs
            | ok u => exact storeSet_allOk (fun d : CategoryDoc => pairOk d.image d.imagePublicId) id _ (hc _ _ u hu) store hs
  case _ =>
    intro cloud store newId body file hc hs
    cases file with
    | none => exact append_allOk (fun d : ProductDoc => pairOk d.image d.imagePublicId) store newId _ hs (Or.inl ⟨rfl, rfl⟩)
    | some buf =>
        simp only [postProducts, uploadToCloudinary, prodStoreOk]
        cases hu : cloud.uploadResult buf ("menumaster/" ++ "products") with
        | error e => exact hs
        | ok u => exact append_allOk (fun d : ProductDoc => pairOk d.image d.imagePublicId) store newId _ hs (hc _ _ u hu)
  case _ =>
    intro cloud store id body file hc hs
    cases hf : findById store id with
    | none => simpa only [putProductById, hf] using hs
    | some product =>
        obtain ⟨p, hp, he⟩ := findById_mem store id product hf
        have hprod : pairOk product.image product.imagePublicId := he ▸ hs p hp
        cases file with
        | none =>
            simp only [putProductById, hf]
            exact storeSet_allOk (fun d : ProductDoc => pairOk d.image d.imagePublicId) id
              { other := mergeFields product.other body.other,
                image := product.image, imagePublicId := product.imagePublicId } hprod store hs
        | some buf =>
            simp only [putProductById, hf, uploadToCloudinary]
            cases hu : cloud.uploadResult buf ("menumaster/" ++ "products") with
            | error e => exact hs
            | ok u => exact storeSet_allOk (fun d : ProductDoc => pairOk d.image d.imagePublicId) id _ (hc _ _ u hu) store hs
  case _ =>
    intro cloud store newId body file hc hs
    cases file with
    | none => exact append_allOk (fun d : RestaurantDoc => pairOk d.logo d.logoPublicId) store newId _ hs (Or.inl ⟨rfl, rfl⟩)
    | some buf =>
        simp only [postRestaurants, uploadToCloudinary, restStoreOk]
        cases hu : cloud.uploadResult buf ("menumaster/" ++ "restaurants") with
        | error e => exact hs
        | ok u => exact append_allOk (fun d : RestaurantDoc => pairOk d.logo d.logoPublicId) store newId _ hs (hc _ _ u hu)
  case _ =>
    intro cloud store id body file hc hs
    cases hf : findById store id with
    | none => simpa only [putRestaurantById, hf] using hs
    | some restaurant =>
        obtain ⟨p, hp, he⟩ := findById_mem store id restaurant hf
        have hrest : pairOk restaurant.logo restaurant.logoPublicId := he ▸ hs p hp
        cases file with
        | none =>
            simp only [putRestaurantById, hf]
            exact storeSet_allOk (fun d : RestaurantDoc => pairOk d.logo d.logoPublicId) id
              { other := mergeFields restaurant.other body.other,
                logo := restaurant.logo, logoPublicId := restaurant.logoPublicId } hrest store hs
        | some buf =>
            simp only [putRestaurantById, hf, uploadToCloudinary]
            cases hu : cloud.uploadResult buf ("menumaster/" ++ "restaurants") with
            | error e => exact hs
            | ok u => exact storeSet_allOk (fun d : RestaurantDoc => pairOk d.logo d.logoPublicId) id _ (hc _ _ u hu) store hs

/-- C1 witness: the invariant-preservation theorem applied to a concrete
store and a concrete always-succeeding Cloudinary environment. -/
theorem c1_image_pair_invariant_witness :
    cloudUploadsPairOk cloudDemoOk ∧
    catStoreOk [("c1",
      { other := [("name", "Tea")],
        image := "https://res.example/old.png", imagePublicId := "oldpid" })] ∧
    catStoreOk (putCategoryById cloudDemoOk
      [("c1",
        { other := [("name", "Tea")],
          image := "https://res.example/old.png", imagePublicId := "oldpid" })]
      "c1" { other := [], image := none, imagePublicId := none } (some [3])).store := by
  have hcloud : cloudUploadsPairOk cloudDemoOk := by
    intro buf folder u h
    simp only [cloudDemoOk] at h
    injection h with hu
    rw [← hu]
    exact Or.inr ⟨by decide, by decide⟩
  have hstore : catStoreOk [("c1",
      { other := [("name", "Tea")],
        image := "https://res.example/old.png", imagePublicId := "oldpid" })] := by
    intro p hp
    simp only [List.mem_singleton] at hp
    subst hp
    exact Or.inr ⟨by decide, by decide⟩
  exact ⟨hcloud, hstore,
    c1_image_pair_invariant.2.1 cloudDemoOk _ "c1" _ (some [3]) hcloud hstore⟩

/-- C5 witness: the create-with-file theorem applied at a concrete store,
body, file bytes and upload result. -/
theorem c5_create_with_file_upload_witness :
    cloudDemoOk.uploadResult [7, 8] "menumaster/categories" =
      Except.ok { url := "https://res.example/img.png", publicId := "newpid1" } ∧
    (postCategories cloudDemoOk [] "c1"
        { other := [("name", "Drinks")], image := none, imagePublicId := none }
        (some [7, 8])).store =
      [("c1",
        { other := [("name", "Drinks")],
          image := "https://res.example/img.png", imagePublicId := "newpid1" })] :=
  ⟨rfl, by
    have h := (c5_create_with_file_upload.1 cloudDemoOk [] "c1"
      { other := [("name", "Drinks")], image := none, imagePublicId := none }
      [7, 8] { url := "https://res.example/img.png", publicId := "newpid1" } rfl).2.2.1
    simpa using h⟩

/-- C6 witness: the create-upload-failure theorem applied at a concrete store,
body, file bytes and rejecting environment. -/
theorem c6_create_upload_failure_witness :
    cloudDemoUploadFail.uploadResult [1] "menumaster/categories" =
      Except.error "upload rejected" ∧
    (postCategories cloudDemoUploadFail
        [("c0", { other := [], image := "", imagePublicId := "" })] "c1"
        { other := [("name", "Drinks")], image := none, imagePublicId := none }
        (some [1])).status = 500 ∧
    (postCategories cloudDemoUploadFail
        [("c0", { other := [], image := "", imagePublicId := "" })] "c1"
        { other := [("name", "Drinks")], image := none, imagePublicId := none }
        (some [1])).store = [("c0", { other := [], image := "", imagePublicId := "" })] := by
  have h := c6_create_upload_failure.1 cloudDemoUploadFail
    [("c0", { other := [], image := "", imagePublicId := "" })] "c1"
    { other := [("name", "Drinks")], image := none, imagePublicId := none }
    [1] "upload rejected" rfl
  exact ⟨rfl, h.1, h.2.2.1⟩

/-- C3: updating a Category, Product or Restaurant with no file persists the
raw request fields merged over the existing document, carries the existing
image URL and asset id forward unchanged, and makes no Asset Store call. -/
theorem c3_update_without_file_frame :
    (∀ (cloud : Cloud) (store : CategoryStore) (id : String) (body : CategoryBody)
      (cat : CategoryDoc), findById store id = some cat →
      (putCategoryById cloud store id body none).status = 200 ∧
      (putCategoryById cloud store id body none).body =
        RespBody.doc
          { other := mergeFields cat.other body.other,
            image := cat.image, imagePublicId := cat.imagePublicId } ∧
      (putCategoryById cloud store id body none).store =
        storeSet store id
          { other := mergeFields cat.other body.other,
            image := cat.image, imagePublicId := cat.imagePublicId } ∧
      (putCategoryById cloud store id body none).events = [Event.dbUpdate id] ∧
      ∀ e ∈ (putCategoryById cloud store id body none).events, isAssetCall e = false) ∧
    (∀ (cloud : Cloud) (store : ProductStore) (id : String) (body : ProductBody)
      (product : ProductDoc), findById store id = some product →
      (putProductById cloud store id body none).status = 200 ∧
      (putProductById cloud store id body none).body =
        RespBody.doc
          { other := mergeFields product.other body.other,
            image := product.image, imagePublicId := product.imagePublicId } ∧
      (putProductById cloud store id body none).store =
        storeSet store id
          { other := mergeFields product.other body.other,
            image := product.image, imagePublicId := product.imagePublicId } ∧
      (putProductById cloud store id body none).events = [Event.dbUpdate id] ∧
      ∀ e ∈ (putProductById cloud store id body none).events, isAssetCall e = false) ∧
    (∀ (cloud : Cloud) (store : RestaurantStore) (id : String) (body : RestaurantBody)
      (restaurant : RestaurantDoc), findById store id = some restaurant →
      (putRestaurantById cloud store id body none).status = 200 ∧
      (putRestaurantById cloud store id body none).body =
        RespBody.doc
          { other := mergeFields restaurant.other body.other,
            logo := restaurant.logo, logoPublicId := restaurant.logoPublicId } ∧
      (putRestaurantById cloud store id body none).store =
        storeSet store id
          { other := mergeFields restaurant.other body.other,
            logo := restaurant.logo, logoPublicId := restaurant.logoPublicId } ∧
      (putRestaurantById cloud store id body none).events = [Event.dbUpdate id] ∧
      ∀ e ∈ (putRestaurantById cloud store id body none).events, isAssetCall e = false) := by
  refine ⟨?_, ?_, ?_⟩ <;>
    · intro cloud store id body d hf
      simp [putCategoryById, putProductById, putRestaurantById, hf, isAssetCall]

/-- C3 witness: an update with no file on a concrete store, with a changed
name field, leaves the image pair intact. -/
theorem c3_update_without_file_frame_witness :
    findById [("c1",
      ({ other := [("name", "Tea")],
         image := "https://res.example/old.png", imagePublicId := "oldpid" } : CategoryDoc))] "c1" =
      some { other := [("name", "Tea")],
             image := "https://res.example/old.png", imagePublicId := "oldpid" } ∧
    (putCategoryById cloudDemoOk
        [("c1",
          { other := [("name", "Tea")],
            image := "https://res.example/old.png", imagePublicId := "oldpid" })]
        "c1" { other := [("name", "Coffee")], image := none, imagePublicId := none }
        none).store =
      [("c1",
        { other := [("name", "Coffee")],
          image := "https://res.example/old.png", imagePublicId := "oldpid" })] := by
  have h := (c3_update_without_file_frame.1 cloudDemoOk
    [("c1",
      { other := [("name", "Tea")],
        image := "https://res.example/old.png", imagePublicId := "oldpid" })]
    "c1" { other := [("name", "Coffee")], image := none, imagePublicId := none }
    { other := [("name", "Tea")],
      image := "https://res.example/old.png", imagePublicId := "oldpid" } rfl).2.2.1
  refine ⟨rfl, ?_⟩
  rw [h]
  rfl

/-- C2: updating a Category, Product or Restaurant with new file bytes on a
document whose asset id is non-empty issues the destroy of the old asset
strictly before the upload (first two trace events, whatever the upload
outcome); on upload success the returned URL and asset id replace the old
ones in the persisted document, and — the Asset Store returning a fresh id,
distinct from the old one — the persisted new asset id differs from the old
one; when the existing asset id is empty, no destroy is ever issued. -/
theorem c2_update_replaces_asset :
    (∀ (cloud : Cloud) (store : CategoryStore) (id : String) (body : CategoryBody)
      (buf : List Nat) (cat : CategoryDoc), findById store id = some cat →
      cat.imagePublicId ≠ "" →
      (putCategoryById cloud store id body (some buf)).events.take 2 =
        [Event.destroy cat.imagePublicId, Event.upload "menumaster/categories" buf]) ∧
    (∀ (cloud : Cloud) (store : CategoryStore) (id : String) (body : CategoryBody)
      (buf : List Nat) (cat : CategoryDoc) (u : UploadOk), findById store id = some cat →
      cat.imagePublicId ≠ "" →
      cloud.uploadResult buf "menumaster/categories" = Except.ok u →
      u.publicId ≠ cat.imagePublicId →
      (putCategoryById cloud store id body (some buf)).events =
        [Event.destroy cat.imagePublicId, Event.upload "menumaster/categories" buf,
         Event.dbUpdate id] ∧
      (putCategoryById cloud store id body (some buf)).store =
        storeSet store id
          { other := mergeFields cat.other body.other,
            image := u.url, imagePublicId := u.publicId } ∧
      ({ other := mergeFields cat.other body.other,
         image := u.url, imagePublicId := u.publicId } : CategoryDoc).imagePublicId ≠
        cat.imagePublicId) ∧
    (∀ (cloud : Cloud) (store : CategoryStore) (id : String) (body : CategoryBody)
      (buf : List Nat) (cat : CategoryDoc), findById store id = some cat →
      cat.imagePublicId = "" →
      ∀ p, Event.destroy p ∉ (putCategoryById cloud store id body (some buf)).events) ∧
    (∀ (cloud : Cloud) (store : ProductStore) (id : String) (body : ProductBody)
      (buf : List Nat) (product : ProductDoc), findById store id = some product →
      product.imagePublicId ≠ "" →
      (putProductById cloud store id body (some buf)).events.take 2 =
        [Event.destroy product.imagePublicId, Event.upload "menumaster/products" buf]) ∧
    (∀ (cloud : Cloud) (store : ProductStore) (id : String) (body : ProductBody)
      (buf : List Nat) (product : ProductDoc) (u : UploadOk), findById store id = some product →
      product.imagePublicId ≠ "" →
      cloud.uploadResult buf "menumaster/products" = Except.ok u →
      u.publicId ≠ product.imagePublicId →
      (putProductById cloud store id body (some buf)).events =
        [Event.destroy product.imagePublicId, Event.upload "menumaster/products" buf,
         Event.dbUpdate id] ∧
      (putProductById cloud store id body (some buf)).store =
        storeSet store id
          { other := mergeFields product.other body.other,
            image := u.url, imagePublicId := u.publicId } ∧
      ({ other := mergeFields product.other body.other,
         image := u.url, imagePublicId := u.publicId } : ProductDoc).imagePublicId ≠
        product.imagePublicId) ∧
    (∀ (cloud : Cloud) (store : ProductStore) (id : String) (body : ProductBody)
      (buf : List Nat) (product : ProductDoc), findById store id = some product →
      product.imagePublicId = "" →
      ∀ p, Event.destroy p ∉ (putProductById cloud store id body (some buf)).events) ∧
    (∀ (cloud : Cloud) (store : RestaurantStore) (id : String) (body : RestaurantBody)
      (buf : List Nat) (restaurant : RestaurantDoc), findById store id = some restaurant →
      restaurant.logoPublicId ≠ "" →
      (putRestaurantById cloud store id body (some buf)).events.take 2 =
        [Event.destroy restaurant.logoPublicId, Event.upload "menumaster/restaurants" buf]) ∧
    (∀ (cloud : Cloud) (store : RestaurantStore) (id : String) (body : RestaurantBody)
      (buf : List Nat) (restaurant : RestaurantDoc) (u : UploadOk),
      findById store id = some restaurant →
      restaurant.logoPublicId ≠ "" →
      cloud.uploadResult buf "menumaster/restaurants" = Except.ok u →
      u.publicId ≠ restaurant.logoPublicId →
      (putRestaurantById cloud store id body (some buf)).events =
        [Event.destroy restaurant.logoPublicId, Event.upload "menumaster/restaurants" buf,
         Event.dbUpdate id] ∧
      (putRestaurantById cloud store id body (some buf)).store =
        storeSet store id
          { other := mergeFields restaurant.other body.other,
            logo := u.url, logoPublicId := u.publicId } ∧
      ({ other := mergeFields restaurant.other body.other,
         logo := u.url, logoPublicId := u.publicId } : RestaurantDoc).logoPublicId ≠
        restaurant.logoPublicId) ∧
    (∀ (cloud : Cloud) (store : RestaurantStore) (id : String) (body : RestaurantBody)
      (buf : List Nat) (restaurant : RestaurantDoc), findById store id = some restaurant →
      restaurant.logoPublicId = "" →
      ∀ p, Event.destroy p ∉ (putRestaurantById cloud store id body (some buf)).events) := by
  refine ⟨?_, ?_, ?_, ?_, ?_, ?_, ?_, ?_, ?_⟩
  case _ =>
    intro cloud store id body buf cat hf hpid
    simp only [putCategoryById, hf, uploadToCloudinary, folder_categories,
      if_neg hpid, deleteFromCloudinary_events]
    cases hu : cloud.uploadResult buf "menumaster/categories" <;> simp
  case _ =>
    intro cloud store id body buf cat u hf hpid hu hfresh
    simp only [putCategoryById, hf, uploadToCloudinary, folder_categories,
      if_neg hpid, deleteFromCloudinary_events, hu]
    exact ⟨by simp, by simp, hfresh⟩
  case _ =>
    intro cloud store id body buf cat hf hpid p
    simp only [putCategoryById, hf, uploadToCloudinary, folder_categories, hpid,
      if_pos]
    cases hu : cloud.uploadResult buf "menumaster/categories" <;> simp
  case _ =>
    intro cloud store id body buf product hf hpid
    simp only [putProductById, hf, uploadToCloudinary, folder_products,
      if_neg hpid, deleteFromCloudinary_events]
    cases hu : cloud.uploadResult buf "menumaster/products" <;> simp
  case _ =>
    intro cloud store id body buf product u hf hpid hu hfresh
    simp only [putProductById, hf, uploadToCloudinary, folder_products,
      if_neg hpid, deleteFromCloudinary_events, hu]
    exact ⟨by simp, by simp, hfresh⟩
  case _ =>
    intro cloud store id body buf product hf hpid p
    simp only [putProductById, hf, uploadToCloudinary, folder_products, hpid,
      if_pos]
    cases hu : cloud.uploadResult buf "menumaster/products" <;> simp
  case _ =>
    intro cloud store id body buf restaurant hf hpid
    simp only [putRestaurantById, hf, uploadToCloudinary, folder_restaurants,
      if_neg hpid, deleteFromCloudinary_events]
    cases hu : cloud.uploadResult buf "menumaster/restaurants" <;> simp
  case _ =>
    intro cloud store id body buf restaurant u hf hpid hu hfresh
    simp only [putRestaurantById, hf, uploadToCloudinary, folder_restaurants,
      if_neg hpid, deleteFromCloudinary_events, hu]
    exact ⟨by simp, by simp, hfresh⟩
  case _ =>
    intro cloud store id body buf restaurant hf hpid p
    simp only [putRestaurantById, hf, uploadToCloudinary, folder_restaurants, hpid,
      if_pos]
    cases hu : cloud.uploadResult buf "menumaster/restaurants" <;> simp

/-- C7: deleting an existing Category, Product or Restaurant destroys the
asset first when the stored asset id is non-empty (the destroy event precedes
the document-delete event), makes no Asset Store call at all when the asset
id is empty, always removes the document — whatever the destroy outcome, the
environment being universally quantified — and answers with the confirmation
message naming the entity kind. -/
theorem c7_delete_releases_asset :
    (∀ (cloud : Cloud) (store : CategoryStore) (id : String) (cat : CategoryDoc),
      findById store id = some cat →
      (cat.imagePublicId ≠ "" →
        (deleteCategoryById cloud store id).events =
          [Event.destroy cat.imagePublicId, Event.dbDelete id]) ∧
      (cat.imagePublicId = "" →
        (deleteCategoryById cloud store id).events = [Event.dbDelete id] ∧
        ∀ e ∈ (deleteCategoryById cloud store id).events, isAssetCall e = false) ∧
      (deleteCategoryById cloud store id).store = storeRemove store id ∧
      (deleteCategoryById cloud store id).status = 200 ∧
      (deleteCategoryById cloud store id).body = RespBody.message "Category deleted") ∧
    (∀ (cloud : Cloud) (store : ProductStore) (id : String) (product : ProductDoc),
      findById store id = some product →
      (product.imagePublicId ≠ "" →
        (deleteProductById cloud store id).events =
          [Event.destroy product.imagePublicId, Event.dbDelete id]) ∧
      (product.imagePublicId = "" →
        (deleteProductById cloud store id).events = [Event.dbDelete id] ∧
        ∀ e ∈ (deleteProductById cloud store id).events, isAssetCall e = false) ∧
      (deleteProductById cloud store id).store = storeRemove store id ∧
      (deleteProductById cloud store id).status = 200 ∧
      (deleteProductById cloud store id).body = RespBody.message "Product deleted") ∧
    (∀ (cloud : Cloud) (store : RestaurantStore) (id : String) (restaurant : RestaurantDoc),
      findById store id = some restaurant →
      (restaurant.logoPublicId ≠ "" →
        (deleteRestaurantById cloud store id).events =
          [Event.destroy restaurant.logoPublicId, Event.dbDelete id]) ∧
      (restaurant.logoPublicId = "" →
        (deleteRestaurantById cloud store id).events = [Event.dbDelete id] ∧
        ∀ e ∈ (deleteRestaurantById cloud store id).events, isAssetCall e = false) ∧
      (deleteRestaurantById cloud store id).store = storeRemove store id ∧
      (deleteRestaurantById cloud store id).status = 200 ∧
      (deleteRestaurantById cloud store id).body = RespBody.message "Restaurant deleted") := by
  refine ⟨?_, ?_, ?_⟩
  case _ =>
    intro cloud store id cat hf
    refine ⟨fun hpid => ?_, fun hpid => ⟨?_, ?_⟩, ?_, ?_, ?_⟩
    · simp [deleteCategoryById, hf, if_neg hpid, deleteFromCloudinary_events]
    · simp [deleteCategoryById, hf, hpid]
    · intro e he
      simp [deleteCategoryById, hf, hpid] at he
      subst he
      rfl
    · simp [deleteCategoryById, hf]
    · simp [deleteCategoryById, hf]
    · simp [deleteCategoryById, hf]
  case _ =>
    intro cloud store id product hf
    refine ⟨fun hpid => ?_, fun hpid => ⟨?_, ?_⟩, ?_, ?_, ?_⟩
    · simp [deleteProductById, hf, if_neg hpid, deleteFromCloudinary_events]
    · simp [deleteProductById, hf, hpid]
    · intro e he
      simp [deleteProductById, hf, hpid] at he
      subst he
      rfl
    · simp [deleteProductById, hf]
    · simp [deleteProductById, hf]
    · simp [deleteProductById, hf]
  case _ =>
    intro cloud store id restaurant hf
    refine ⟨fun hpid => ?_, fun hpid => ⟨?_, ?_⟩, ?_, ?_, ?_⟩
    · simp [deleteRestaurantById, hf, if_neg hpid, deleteFromCloudinary_events]
    · simp [deleteRestaurantById, hf, hpid]
    · intro e he
      simp [deleteRestaurantById, hf, hpid] at he
      subst he
      rfl
    · simp [deleteRestaurantById, hf]
    · simp [deleteRestaurantById, hf]
    · simp [deleteRestaurantById, hf]

/-- C8: the outcome of every operation that attempts an Asset Store deletion
(replace-on-update and release-on-delete of every kind) does not depend on
the destroy outcome: two environments sharing the upload behaviour but with
arbitrary, possibly failing, destroy behaviours give the same status, body,
collection and call trace — the destroy failure is swallowed. -/
theorem c8_asset_delete_failure_swallowed :
    (∀ (up : List Nat → String → Except String UploadOk)
      (dr₁ dr₂ : String → Except String Unit) (store : CategoryStore) (id : String)
      (body : CategoryBody) (file : Option (List Nat)),
      (putCategoryById ⟨up, dr₁⟩ store id body file).status =
        (putCategoryById ⟨up, dr₂⟩ store id body file).status ∧
      (putCategoryById ⟨up, dr₁⟩ store id body file).body =
        (putCategoryById ⟨up, dr₂⟩ store id body file).body ∧
      (putCategoryById ⟨up, dr₁⟩ store id body file).store =
        (putCategoryById ⟨up, dr₂⟩ store id body file).store ∧
      (putCategoryById ⟨up, dr₁⟩ store id body file).events =
        (putCategoryById ⟨up, dr₂⟩ store id body file).events) ∧
    (∀ (up : List Nat → String → Except String UploadOk)
      (dr₁ dr₂ : String → Except String Unit) (store : CategoryStore) (id : String),
      (deleteCategoryById ⟨up, dr₁⟩ store id).status =
        (deleteCategoryById ⟨up, dr₂⟩ store id).status ∧
      (deleteCategoryById ⟨up, dr₁⟩ store id).body =
        (deleteCategoryById ⟨up, dr₂⟩ store id).body ∧
      (deleteCategoryById ⟨up, dr₁⟩ store id).store =
        (deleteCategoryById ⟨up, dr₂⟩ store id).store ∧
      (deleteCategoryById ⟨up, dr₁⟩ store id).events =
        (deleteCategoryById ⟨up, dr₂⟩ store id).events) ∧
    (∀ (up : List Nat → String → Except String UploadOk)
      (dr₁ dr₂ : String → Except String Unit) (store : ProductStore) (id : String)
      (body : ProductBody) (file : Option (List Nat)),
      (putProductById ⟨up, dr₁⟩ store id body file).status =
        (putProductById ⟨up, dr₂⟩ store id body file).status ∧
      (putProductById ⟨up, dr₁⟩ store id body file).body =
        (putProductById ⟨up, dr₂⟩ store id body file).body ∧
      (putProductById ⟨up, dr₁⟩ store id body file).store =
        (putProductById ⟨up, dr₂⟩ store id body file).store ∧
      (putProductById ⟨up, dr₁⟩ store id body file).events =
        (putProductById ⟨up, dr₂⟩ store id body file).events) ∧
    (∀ (up : List Nat → String → Except String UploadOk)
      (dr₁ dr₂ : String → Except String Unit) (store : ProductStore) (id : String),
      (deleteProductById ⟨up, dr₁⟩ store id).status =
        (deleteProductById ⟨up, dr₂⟩ store id).status ∧
      (deleteProductById ⟨up, dr₁⟩ store id).body =
        (deleteProductById ⟨up, dr₂⟩ store id).body ∧
      (deleteProductById ⟨up, dr₁⟩ store id).store =
        (deleteProductById ⟨up, dr₂⟩ store id).store ∧
      (deleteProductById ⟨up, dr₁⟩ store id).events =
        (deleteProductById ⟨up, dr₂⟩ store id).events) ∧
    (∀ (up : List Nat → String → Except String UploadOk)
      (dr₁ dr₂ : String → Except String Unit) (store : RestaurantStore) (id : String)
      (body : RestaurantBody) (file : Option (List Nat)),
      (putRestaurantById ⟨up, dr₁⟩ store id body file).status =
        (putRestaurantById ⟨up, dr₂⟩ store id body file).status ∧
      (putRestaurantById ⟨up, dr₁⟩ store id body file).body =
        (putRestaurantById ⟨up, dr₂⟩ store id body file).body ∧
      (putRestaurantById ⟨up, dr₁⟩ store id body file).store =
        (putRestaurantById ⟨up, dr₂⟩ store id body file).store ∧
      (putRestaurantById ⟨up, dr₁⟩ store id body file).events =
        (putRestaurantById ⟨up, dr₂⟩ store id body file).events) ∧
    (∀ (up : List Nat → String → Except String UploadOk)
      (dr₁ dr₂ : String → Except String Unit) (store : RestaurantStore) (id : String),
      (deleteRestaurantById ⟨up, dr₁⟩ store id).status =
        (deleteRestaurantById ⟨up, dr₂⟩ store id).status ∧
      (deleteRestaurantById ⟨up, dr₁⟩ store id).body =
        (deleteRestaurantById ⟨up, dr₂⟩ store id).body ∧
      (deleteRestaurantById ⟨up, dr₁⟩ store id).store =
        (deleteRestaurantById ⟨up, dr₂⟩ store id).store ∧
      (deleteRestaurantById ⟨up, dr₁⟩ store id).events =
        (deleteRestaurantById ⟨up, dr₂⟩ store id).events) := by
  refine ⟨?_, ?_, ?_, ?_, ?_, ?_⟩
  case _ =>
    intro up dr₁ dr₂ store id body file
    cases hf : findById store id with
    | none => simp [putCategoryById, hf]
    | some cat =>
        cases file with
        | none => simp [putCategoryById, hf]
        | some buf =>
            by_cases hpid : cat.imagePublicId = ""
            · simp only [putCategoryById, hf, hpid, if_pos, uploadToCloudinary]
              cases hu : up buf ("menumaster/" ++ "categories") <;> simp
            · simp only [putCategoryById, hf, if_neg hpid, uploadToCloudinary,
                deleteFromCloudinary_events]
              cases hu : up buf ("menumaster/" ++ "categories") <;> simp
  case _ =>
    intro up dr₁ dr₂ store id
    cases hf : findById store id with
    | none => simp [deleteCategoryById, hf]
    | some cat =>
        by_cases hpid : cat.imagePublicId = ""
        · simp [deleteCategoryById, hf, hpid]
        · simp [deleteCategoryById, hf, if_neg hpid, deleteFromCloudinary_events]
  case _ =>
    intro up dr₁ dr₂ store id body file
    cases hf : findById store id with
    | none => simp [putProductById, hf]
    | some product =>
        cases file with
        | none => simp [putProductById, hf]
        | some buf =>
            by_cases hpid : product.imagePublicId = ""
            · simp only [putProductById, hf, hpid, if_pos, uploadToCloudinary]
              cases hu : up buf ("menumaster/" ++ "products") <;> simp
            · simp only [putProductById, hf, if_neg hpid, uploadToCloudinary,
                deleteFromCloudinary_events]
              cases hu : up buf ("menumaster/" ++ "products") <;> simp
  case _ =>
    intro up dr₁ dr₂ store id
    cases hf : findById store id with
    | none => simp [deleteProductById, hf]
    | some product =>
        by_cases hpid : product.imagePublicId = ""
        · simp [deleteProductById, hf, hpid]
        · simp [deleteProductById, hf, if_neg hpid, deleteFromCloudinary_events]
  case _ =>
    intro up dr₁ dr₂ store id body file
    cases hf : findById store id with
    | none => simp [putRestaurantById, hf]
    | some restaurant =>
        cases file with
        | none => simp [putRestaurantById, hf]
        | some buf =>
            by_cases hpid : restaurant.logoPublicId = ""
            · simp only [putRestaurantById, hf, hpid, if_pos, uploadToCloudinary]
              cases hu : up buf ("menumaster/" ++ "restaurants") <;> simp
            · simp only [putRestaurantById, hf, if_neg hpid, uploadToCloudinary,
                deleteFromCloudinary_events]
              cases hu : up buf ("menumaster/" ++ "restaurants") <;> simp
  case _ =>
    intro up dr₁ dr₂ store id
    cases hf : findById store id with
    | none => simp [deleteRestaurantById, hf]
    | some restaurant =>
        by_cases hpid : restaurant.logoPublicId = ""
        · simp [deleteRestaurantById, hf, hpid]
        · simp [deleteRestaurantById, hf, if_neg hpid, deleteFromCloudinary_events]

/-- C9: for each of the five entity kinds, get, update and delete on an id
absent from the collection answer HTTP 404 with the kind-specific message and
an empty side-effect trace (so before any Asset Store call), and the list
route on an empty collection answers HTTP 200 with an empty sequence. -/
theorem c9_not_found_and_empty_list :
    (∀ (store : CategoryStore) (id : String), findById store id = none →
      (getCategoryById store id).status = 404 ∧
      (getCategoryById store id).body = RespBody.error "Category not found" ∧
      (getCategoryById store id).events = []) ∧
    (∀ (cloud : Cloud) (store : CategoryStore) (id : String) (body : CategoryBody)
      (file : Option (List Nat)), findById store id = none →
      (putCategoryById cloud store id body file).status = 404 ∧
      (putCategoryById cloud store id body file).body =
        RespBody.error "Category not found" ∧
      (putCategoryById cloud store id body file).events = []) ∧
    (∀ (cloud : Cloud) (store : CategoryStore) (id : String), findById store id = none →
      (deleteCategoryById cloud store id).status = 404 ∧
      (deleteCategoryById cloud store id).body = RespBody.error "Category not found" ∧
      (deleteCategoryById cloud store id).events = []) ∧
    ((getCategoriesList []).status = 200 ∧
      (getCategoriesList []).body = RespBody.docs []) ∧
    (∀ (store : OfferStore) (id : String), findById store id = none →
      (getOfferById store id).status = 404 ∧
      (getOfferById store id).body = RespBody.error "Offer not found" ∧
      (getOfferById store id).events = []) ∧
    (∀ (store : OfferStore) (id : String) (body : List (String × String)),
      findById store id = none →
      (putOfferById store id body).status = 404 ∧
      (putOfferById store id body).body = RespBody.error "Offer not found" ∧
      (putOfferById store id body).events = []) ∧
    (∀ (store : OfferStore) (id : String), findById store id = none →
      (deleteOfferById store id).status = 404 ∧
      (deleteOfferById store id).body = RespBody.error "Offer not found" ∧
      (deleteOfferById store id).events = []) ∧
    ((getOffersList []).status = 200 ∧ (getOffersList []).body = RespBody.docs []) ∧
    (∀ (store : ProductStore) (id : String), findById store id = none →
      (getProductById store id).status = 404 ∧
      (getProductById store id).body = RespBody.error "Product not found" ∧
      (getProductById store id).events = []) ∧
    (∀ (cloud : Cloud) (store : ProductStore) (id : String) (body : ProductBody)
      (file : Option (List Nat)), findById store id = none →
      (putProductById cloud store id body file).status = 404 ∧
      (putProductById cloud store id body file).body =
        RespBody.error "Product not found" ∧
      (putProductById cloud store id body file).events = []) ∧
    (∀ (cloud : Cloud) (store : ProductStore) (id : String), findById store id = none →
      (deleteProductById cloud store id).status = 404 ∧
      (deleteProductById cloud store id).body = RespBody.error "Product not found" ∧
      (deleteProductById cloud store id).events = []) ∧
    ((getProductsList []).status = 200 ∧
      (getProductsList []).body = RespBody.docs []) ∧
    (∀ (store : AdminStore) (id : String), findById store id = none →
      (getAdminById store id).status = 404 ∧
      (getAdminById store id).body = RespBody.error "Admin not found" ∧
      (getAdminById store id).events = []) ∧
    (∀ (store : AdminStore) (id : String) (body : List (String × String)),
      findById store id = none →
      (putAdminById store id body).status = 404 ∧
      (putAdminById store id body).body = RespBody.error "Admin not found" ∧
      (putAdminById store id body).events = []) ∧
    (∀ (store : AdminStore) (id : String), findById store id = none →
      (deleteAdminById store id).status = 404 ∧
      (deleteAdminById store id).body = RespBody.error "Admin not found" ∧
      (deleteAdminById store id).events = []) ∧
    ((getAdminsList []).status = 200 ∧ (getAdminsList []).body = RespBody.docs []) ∧
    (∀ (store : RestaurantStore) (id : String), findById store id = none →
      (getRestaurantById store id).status = 404 ∧
      (getRestaurantById store id).body = RespBody.error "Restaurant not found" ∧
      (getRestaurantById store id).events = []) ∧
    (∀ (cloud : Cloud) (store : RestaurantStore) (id : String) (body : RestaurantBody)
      (file : Option (List Nat)), findById store id = none →
      (putRestaurantById cloud store id body file).status = 404 ∧
      (putRestaurantById cloud store id body file).body =
        RespBody.error "Restaurant not found" ∧
      (putRestaurantById cloud store id body file).events = []) ∧
    (∀ (cloud : Cloud) (store : RestaurantStore) (id : String), findById store id = none →
      (deleteRestaurantById cloud store id).status = 404 ∧
      (deleteRestaurantById cloud store id).body =
        RespBody.error "Restaurant not found" ∧
      (deleteRestaurantById cloud store id).events = []) ∧
    ((getRestaurantsList []).status = 200 ∧
      (getRestaurantsList []).body = RespBody.docs []) := by
  refine ⟨?_, ?_, ?_, ⟨rfl, rfl⟩, ?_, ?_, ?_, ⟨rfl, rfl⟩, ?_, ?_, ?_, ⟨rfl, rfl⟩,
    ?_, ?_, ?_, ⟨rfl, rfl⟩, ?_, ?_, ?_, ⟨rfl, rfl⟩⟩
  case _ => intro store id hf; simp [getCategoryById, hf]
  case _ => intro cloud store id body file hf; simp [putCategoryById, hf]
  case _ => intro cloud store id hf; simp [deleteCategoryById, hf]
  case _ => intro store id hf; simp [getOfferById, hf]
  case _ => intro store id body hf; simp [putOfferById, hf]
  case _ => intro store id hf; simp [deleteOfferById, hf]
  case _ => intro store id hf; simp [getProductById, hf]
  case _ => intro cloud store id body file hf; simp [putProductById, hf]
  case _ => intro cloud store id hf; simp [deleteProductById, hf]
  case _ => intro store id hf; simp [getAdminById, hf]
  case _ => intro store id body hf; simp [putAdminById, hf]
  case _ => intro store id hf; simp [deleteAdminById, hf]
  case _ => intro store id hf; simp [getRestaurantById, hf]
  case _ => intro cloud store id body file hf; simp [putRestaurantById, hf]
  case _ => intro cloud store id hf; simp [deleteRestaurantById, hf]

/-- C10: updating a Category, Product or Restaurant with file bytes whose
upload fails answers HTTP 500 echoing the error, leaves the stored document
completely unchanged (the collection is identical, the old document — old
asset id included — is still found under the id, no document-write event
occurs), even though the destroy of the old asset was already issued when the
old asset id was non-empty: the document may now reference a destroyed asset. -/
theorem c10_update_upload_failure_dangling :
    (∀ (cloud : Cloud) (store : CategoryStore) (id : String) (body : CategoryBody)
      (buf : List Nat) (cat : CategoryDoc) (e : String),
      findById store id = some cat →
      cloud.uploadResult buf "menumaster/categories" = Except.error e →
      (putCategoryById cloud store id body (some buf)).status = 500 ∧
      (putCategoryById cloud store id body (some buf)).body = RespBody.error e ∧
      (putCategoryById cloud store id body (some buf)).store = store ∧
      findById (putCategoryById cloud store id body (some buf)).store id = some cat ∧
      (cat.imagePublicId ≠ "" →
        (putCategoryById cloud store id body (some buf)).events =
          [Event.destroy cat.imagePublicId, Event.upload "menumaster/categories" buf]) ∧
      (cat.imagePublicId = "" →
        (putCategoryById cloud store id body (some buf)).events =
          [Event.upload "menumaster/categories" buf])) ∧
    (∀ (cloud : Cloud) (store : ProductStore) (id : String) (body : ProductBody)
      (buf : List Nat) (product : ProductDoc) (e : String),
      findById store id = some product →
      cloud.uploadResult buf "menumaster/products" = Except.error e →
      (putProductById cloud store id body (some buf)).status = 500 ∧
      (putProductById cloud store id body (some buf)).body = RespBody.error e ∧
      (putProductById cloud store id body (some buf)).store = store ∧
      findById (putProductById cloud store id body (some buf)).store id = some product ∧
      (product.imagePublicId ≠ "" →
        (putProductById cloud store id body (some buf)).events =
          [Event.destroy product.imagePublicId, Event.upload "menumaster/products" buf]) ∧
      (product.imagePublicId = "" →
        (putProductById cloud store id body (some buf)).events =
          [Event.upload "menumaster/products" buf])) ∧
    (∀ (cloud : Cloud) (store : RestaurantStore) (id : String) (body : RestaurantBody)
      (buf : List Nat) (restaurant : RestaurantDoc) (e : String),
      findById store id = some restaurant →
      cloud.uploadResult buf "menumaster/restaurants" = Except.error e →
      (putRestaurantById cloud store id body (some buf)).status = 500 ∧
      (putRestaurantById cloud store id body (some buf)).body = RespBody.error e ∧
      (putRestaurantById cloud store id body (some buf)).store = store ∧
      findById (putRestaurantById cloud store id body (some buf)).store id =
        some restaurant ∧
      (restaurant.logoPublicId ≠ "" →
        (putRestaurantById cloud store id body (some buf)).events =
          [Event.destroy restaurant.logoPublicId,
           Event.upload "menumaster/restaurants" buf]) ∧
      (restaurant.logoPublicId = "" →
        (putRestaurantById cloud store id body (some buf)).events =
          [Event.upload "menumaster/restaurants" buf])) := by
  refine ⟨?_, ?_, ?_⟩
  case _ =>
    intro cloud store id body buf cat e hf hu
    by_cases hpid : cat.imagePublicId = ""
    · refine ⟨?_, ?_, ?_, ?_, fun hne => absurd hpid hne, fun _ => ?_⟩ <;>
        simp [putCategoryById, hf, uploadToCloudinary, folder_categories, hpid, hu]
    · refine ⟨?_, ?_, ?_, ?_, fun _ => ?_, fun heq => absurd heq hpid⟩ <;>
        simp [putCategoryById, hf, uploadToCloudinary, folder_categories,
          if_neg hpid, deleteFromCloudinary_events, hu]
  case _ =>
    intro cloud store id body buf product e hf hu
    by_cases hpid : product.imagePublicId = ""
    · refine ⟨?_, ?_, ?_, ?_, fun hne => absurd hpid hne, fun _ => ?_⟩ <;>
        simp [putProductById, hf, uploadToCloudinary, folder_products, hpid, hu]
    · refine ⟨?_, ?_, ?_, ?_, fun _ => ?_, fun heq => absurd heq hpid⟩ <;>
        simp [putProductById, hf, uploadToCloudinary, folder_products,
          if_neg hpid, deleteFromCloudinary_events, hu]
  case _ =>
    intro cloud store id body buf restaurant e hf hu
    by_cases hpid : restaurant.logoPublicId = ""
    · refine ⟨?_, ?_, ?_, ?_, fun hne => absurd hpid hne, fun _ => ?_⟩ <;>
        simp [putRestaurantById, hf, uploadToCloudinary, folder_restaurants, hpid, hu]
    · refine ⟨?_, ?_, ?_, ?_, fun _ => ?_, fun heq => absurd heq hpid⟩ <;>
        simp [putRestaurantById, hf, uploadToCloudinary, folder_restaurants,
          if_neg hpid, deleteFromCloudinary_events, hu]

/-- C2 witness: the replace-on-update theorem at the spec's scenario — a
product whose prior asset id is "abc123" receives a new file; the destroy of
"abc123" precedes the upload and the persisted id is the fresh one. -/
theorem c2_update_replaces_asset_witness :
    findById [("p1",
      ({ other := [("name", "Burger")], image := "https://res.example/old.png",
         imagePublicId := "abc123" } : ProductDoc))] "p1" =
      some { other := [("name", "Burger")], image := "https://res.example/old.png",
             imagePublicId := "abc123" } ∧
    ("abc123" : String) ≠ "" ∧
    cloudDemoOk.uploadResult [9] "menumaster/products" =
      Except.ok { url := "https://res.example/img.png", publicId := "newpid1" } ∧
    ("newpid1" : String) ≠ "abc123" ∧
    (putProductById cloudDemoOk
      [("p1",
        { other := [("name", "Burger")], image := "https://res.example/old.png",
          imagePublicId := "abc123" })]
      "p1" { other := [], image := none, imagePublicId := none } (some [9])).events =
      [Event.destroy "abc123", Event.upload "menumaster/products" [9],
       Event.dbUpdate "p1"] := by
  have h := (c2_update_replaces_asset.2.2.2.2.1 cloudDemoOk
    [("p1",
      { other := [("name", "Burger")], image := "https://res.example/old.png",
        imagePublicId := "abc123" })]
    "p1" { other := [], image := none, imagePublicId := none } [9]
    { other := [("name", "Burger")], image := "https://res.example/old.png",
      imagePublicId := "abc123" }
    { url := "https://res.example/img.png", publicId := "newpid1" }
    rfl (by decide) rfl (by decide)).1
  exact ⟨rfl, by decide, rfl, by decide, h⟩

/-- C7 witness: the release-on-delete theorem at the spec's scenario — a
restaurant whose logoPublicId is the empty string is deleted with no Asset
Store call and the confirmation message. -/
theorem c7_delete_releases_asset_witness :
    findById [("r1",
      ({ other := [("name", "Pizza Hub")], logo := "", logoPublicId := "" } : RestaurantDoc))]
      "r1" =
      some { other := [("name", "Pizza Hub")], logo := "", logoPublicId := "" } ∧
    (deleteRestaurantById cloudDemoOk
      [("r1", { other := [("name", "Pizza Hub")], logo := "", logoPublicId := "" })]
      "r1").events = [Event.dbDelete "r1"] ∧
    (deleteRestaurantById cloudDemoOk
      [("r1", { other := [("name", "Pizza Hub")], logo := "", logoPublicId := "" })]
      "r1").body = RespBody.message "Restaurant deleted" := by
  have h := c7_delete_releases_asset.2.2 cloudDemoOk
    [("r1", { other := [("name", "Pizza Hub")], logo := "", logoPublicId := "" })]
    "r1" { other := [("name", "Pizza Hub")], logo := "", logoPublicId := "" } rfl
  exact ⟨rfl, (h.2.1 rfl).1, h.2.2.2.2⟩

/-- C9 witness: the not-found theorem at a concrete empty collection. -/
theorem c9_not_found_and_empty_list_witness :
    findById ([] : CategoryStore) "missing" = none ∧
    (getCategoryById [] "missing").status = 404 ∧
    (getCategoryById [] "missing").body = RespBody.error "Category not found" ∧
    (getCategoryById [] "missing").events = [] := by
  have h := c9_not_found_and_empty_list.1 [] "missing" rfl
  exact ⟨rfl, h.1, h.2.1, h.2.2⟩

/-- C10 witness: the dangling-reference theorem at a concrete product whose
asset id "abc123" is destroyed while the upload rejects: 500, the old
document — old asset id included — is still stored, and the trace shows the
destroy with no document write. -/
theorem c10_update_upload_failure_dangling_witness :
    findById [("p1",
      ({ other := [], image := "https://res.example/old.png",
         imagePublicId := "abc123" } : ProductDoc))] "p1" =
      some { other := [], image := "https://res.example/old.png",
             imagePublicId := "abc123" } ∧
    cloudDemoUploadFail.uploadResult [5] "menumaster/products" =
      Except.error "upload rejected" ∧
    (putProductById cloudDemoUploadFail
      [("p1",
        { other := [], image := "https://res.example/old.png",
          imagePublicId := "abc123" })]
      "p1" { other := [], image := none, imagePublicId := none } (some [5])).status = 500 ∧
    findById (putProductById cloudDemoUploadFail
      [("p1",
        { other := [], image := "https://res.example/old.png",
          imagePublicId := "abc123" })]
      "p1" { other := [], image := none, imagePublicId := none } (some [5])).store "p1" =
      some { other := [], image := "https://res.example/old.png",
             imagePublicId := "abc123" } ∧
    (putProductById cloudDemoUploadFail
      [("p1",
        { other := [], image := "https://res.example/old.png",
          imagePublicId := "abc123" })]
      "p1" { other := [], image := none, imagePublicId := none } (some [5])).events =
      [Event.destroy "abc123", Event.upload "menumaster/products" [5]] := by
  have h := c10_update_upload_failure_dangling.2.1 cloudDemoUploadFail
    [("p1",
      { other := [], image := "https://res.example/old.png",
        imagePublicId := "abc123" })]
    "p1" { other := [], image := none, imagePublicId := none } [5]
    { other := [], image := "https://res.example/old.png", imagePublicId := "abc123" }
    "upload rejected" rfl rfl
  exact ⟨rfl, rfl, h.1, h.2.2.2.1, h.2.2.2.2.1 (by decide)⟩

end MenuMaster
